import Mathlib

/-!
Verification of the element lookup & classification core of `Advancetable.py`
(an educational periodic-table browser). The Python source is shallowly
embedded: pure functions become Lean functions over `String`/`Int`/`Option`,
Python exceptions become an explicit `Except PyErr` result, and the value of
`int(float(t))` is computed exactly over integer fractions through a model of
correctly-rounded decimal-to-IEEE-754-double conversion (CPython's `float()`
is correctly rounded, and `int()` truncates toward zero).

Conventions, stated once:
  * Python `None` for an optional argument is modelled by `Option.none`
    (or by `""` where the code immediately replaces falsy values by `""`).
  * `str.strip()` is modelled on the ASCII whitespace characters
    (space, tab, newline, carriage return, vertical tab, form feed);
    exotic Unicode space characters do not occur in this development.
  * `str.lower()` / `str.upper()` are modelled per character with
    `Char.toLower` / `Char.toUpper` (ASCII case mapping), matching Python
    on the ASCII symbols and tokens the program handles.
  * `str.isdigit()` is modelled by `pyIsdigit`: true on the ASCII digits and
    on the superscript digits (Unicode `Numeric_Type=Digit`), the repertoire
    relevant here; `float()` accepts only the ASCII digits of these.
  * Python dictionaries that are loaded from data files (the element
    registry, the combination table) are modelled as explicit functions, so
    every statement is parametric in the loaded data unless it evaluates a
    concrete sample.
-/

set_option maxRecDepth 100000

namespace Advancetable

/-- Python exception kinds that the embedded code can raise. -/
inductive PyErr where
  | valueError
  | overflowError
  | indexError
  deriving DecidableEq, Repr

deriving instance DecidableEq for Except

/-! ### String helpers (models of the Python string methods used) -/

/-- Default whitespace for `str.strip()` (ASCII repertoire). -/
def isPySpace (c : Char) : Bool :=
  c = ' ' || c = '\t' || c = '\n' || c = '\r' || c = '\x0b' || c = '\x0c'

/-- `l` with leading and trailing whitespace removed. -/
def stripChars (l : List Char) : List Char :=
  ((l.dropWhile isPySpace).reverse.dropWhile isPySpace).reverse

/-- Models Python `s.strip()`. -/
def pyStrip (s : String) : String := ⟨stripChars s.data⟩

/-- Models Python `s.replace("\uFEFF", "")`: drop every byte-order mark. -/
def stripBOM (s : String) : String := ⟨s.data.filter (fun c => c ≠ '\uFEFF')⟩

/-- Models Python `s.lower()` (ASCII case mapping). -/
def pyLower (s : String) : String := ⟨s.data.map Char.toLower⟩

/-- Models `norm` from the source: `(s or "").strip().lower()`. -/
def norm (s : String) : String := pyLower (pyStrip s)

/-- Models `_norm_symbol` from the source: drop BOM characters, strip, then
lower-case and capitalize the first letter (a single letter is upper-cased). -/
def norm_symbol (s : String) : String :=
  let s1 := pyStrip (stripBOM s)
  if s1 = "" then ""
  else
    match (pyLower s1).data with
    | [] => ""
    | c :: rest => ⟨Char.toUpper c :: rest⟩

/-- `l` with the first `'.'` removed, models `t.replace(".", "", 1)`. -/
def removeFirstDotAux : List Char → List Char
  | [] => []
  | c :: rest => if c = '.' then rest else c :: removeFirstDotAux rest

/-- Models Python `t.replace(".", "", 1)`. -/
def removeFirstDot (t : String) : String := ⟨removeFirstDotAux t.data⟩

/-- Models Python `str.isdigit` on one character: the ASCII digits plus the
superscript digits `¹ ² ³`, which have the Unicode property
`Numeric_Type=Digit` and so satisfy `isdigit()` although `float()` does not
accept them. (Other non-decimal `isdigit` characters are not used here.) -/
def pyIsdigit (c : Char) : Bool :=
  c.isDigit || c = '¹' || c = '²' || c = '³'

/-! ### Exact model of `int(float(t))` for decimal tokens

Exact rational arithmetic on unreduced integer fractions (numerator over a
positive denominator): every operation is plain `Int`/`Nat` arithmetic, which
the kernel evaluates directly. -/

/-- An unreduced fraction `num / den`; every `den` built here is positive. -/
structure Frac where
  num : Int
  den : Nat
  deriving DecidableEq, Repr

/-- `a ≤ b` for fractions with positive denominators. -/
def fle (a b : Frac) : Bool := a.num * b.den ≤ b.num * a.den

/-- Floor of a fraction with positive denominator. -/
def ffloor (a : Frac) : Int := a.num.fdiv a.den

/-- Product of two fractions. -/
def fmul (a b : Frac) : Frac := ⟨a.num * b.num, a.den * b.den⟩

/-- `2 ^ e` as a fraction, for an integer exponent. -/
def fpow2 (e : Int) : Frac :=
  if 0 ≤ e then ⟨((2 ^ e.toNat : Nat) : Int), 1⟩ else ⟨1, 2 ^ (-e).toNat⟩

/-- Number of binary digits of `n < 2^64` (`0` for `n = 0`), by fuelled
halving so that the kernel can evaluate it. -/
def bitlenSmallAux : Nat → Nat → Nat
  | 0, _ => 0
  | fuel + 1, n => if n = 0 then 0 else bitlenSmallAux fuel (n / 2) + 1

/-- Number of binary digits of `n`, chopping 64 bits per step to keep the
evaluation shallow. The fuel covers every number appearing here. -/
def bitlenAux : Nat → Nat → Nat
  | 0, _ => 0
  | fuel + 1, n =>
    if n < 18446744073709551616 then bitlenSmallAux 64 n
    else bitlenAux fuel (n / 18446744073709551616) + 64

/-- Number of binary digits of `n` (`0` for `n = 0`). -/
def bitlen (n : Nat) : Nat := bitlenAux 60 n

/-- The floor of `log2 v` for a positive fraction `v`: estimate from the bit
lengths of numerator and denominator (the estimate `e0` satisfies
`2 ^ (e0 - 1) ≤ v < 2 ^ (e0 + 1)`), then correct by one comparison. -/
def floorLog2F (v : Frac) : Int :=
  let e0 : Int := (bitlen v.num.natAbs : Int) - (bitlen v.den : Int)
  if fle (fpow2 e0) v then e0 else e0 - 1

/-- Round a fraction to the nearest integer, ties to even. -/
def roundHalfEven (q : Frac) : Int :=
  let f := ffloor q
  let r2 : Int := 2 * (q.num - f * q.den)
  if r2 < q.den then f
  else if (q.den : Int) < r2 then f + 1
  else if f % 2 = 0 then f else f + 1

/-- The nearest IEEE-754 binary64 value to a nonnegative fraction, as an exact
fraction; `none` is positive infinity (the conversion overflows when
`v ≥ 2^1024 - 2^970`, the rounding boundary above the largest finite double).
Exponents below the normal range fall back to the subnormal quantum. -/
def nearestDouble (v : Frac) : Option Frac :=
  if v.num ≤ 0 then some ⟨0, 1⟩
  else if fle ⟨((2 ^ 1024 - 2 ^ 970 : Nat) : Int), 1⟩ v then none
  else
    let e := max (floorLog2F v) (-1022)
    let m := roundHalfEven (fmul v (fpow2 (52 - e)))
    some (fmul ⟨m, 1⟩ (fpow2 (e - 52)))

/-- Value of a list of ASCII digits read in base 10. -/
def digitsVal (l : List Char) : Nat :=
  l.foldl (fun a c => 10 * a + (c.toNat - 48)) 0

/-- Split a token at its first `'.'`; `(l, [])` when there is none. -/
def splitAtDot : List Char → List Char × List Char
  | [] => ([], [])
  | c :: rest =>
    if c = '.' then ([], rest)
    else
      let p := splitAtDot rest
      (c :: p.1, p.2)

/-- Exact value of a token of decimal digits with at most one dot. -/
def decValOfChars (l : List Char) : Frac :=
  let p := splitAtDot l
  ⟨(digitsVal p.1 : Int) * ((10 ^ p.2.length : Nat) : Int) + (digitsVal p.2 : Int),
   10 ^ p.2.length⟩

/-- Models Python `int(float(t))`: an optional sign, then decimal digits with
at most one dot (the exponent, `inf` and `nan` spellings of the float grammar
are not used by this program's inputs and are mapped to `ValueError` like any
other unparseable text). The float conversion is correctly rounded; values at
or beyond the overflow boundary become infinity, on which `int()` raises
`OverflowError`; otherwise `int()` truncates toward zero. -/
def py_int_float (t : String) : Except PyErr Int :=
  let p : Int × List Char :=
    match t.data with
    | '-' :: rest => (-1, rest)
    | '+' :: rest => (1, rest)
    | l => (1, l)
  let stripped := removeFirstDotAux p.2
  if stripped.isEmpty || !stripped.all Char.isDigit then .error .valueError
  else
    match nearestDouble (decValOfChars p.2) with
    | none => .error .overflowError
    | some d => .ok (p.1 * ffloor d)

/-- Models `to_int_or_none` from the source: strip, empty means `None`, then
`int(float(s))` with every exception caught and turned into `None`. -/
def to_int_or_none (s : String) : Option Int :=
  let t := pyStrip s
  if t = "" then none
  else
    match py_int_float t with
    | .error _ => none
    | .ok n => some n

/-! ### Level gating -/

/-- Models `is_unlocked_for_level(level, atno, category=None)`. A falsy
atomic number (`None` or `0`) is always locked. `level or "Advanced"` in the
source only renames a falsy level before string comparisons that fail on
`"Advanced"` anyway, so it is behaviourally the final `else` branch. -/
def is_unlocked_for_level (level : String) (atno : Option Int)
    (category : Option String := none) : Bool :=
  match atno with
  | none => false
  | some n =>
    if n = 0 then false
    else if level = "Basic" then decide (n ≤ 20)
    else if level = "Intermediate" then
      let cat := pyStrip (category.getD "")
      if cat = "Lanthanide" || cat = "Actinide" then false
      else decide (n ≤ 54)
    else decide (n ≤ 118)

/-! ### Registry and token normalizer -/

/-- A parsed element token: the dict `{"atno": at, "symbol": sym}`. -/
structure ParseResult where
  atno : Int
  symbol : String
  deriving DecidableEq, Repr

/-- The symbol maps built at load time (`ATNO_TO_SYMBOL`, `SYMBOL_TO_ATNO`),
modelled as functions since their contents come from the data file. -/
structure Registry where
  atnoToSymbol : Int → Option String
  symbolToAtno : String → Option Int

/-- Models `parse_element_token(token)`. The token is cleaned of BOM
characters and stripped; an empty token is `None`. A token that passes the
`isdigit` test (after removing one dot) is converted with `int(float(t))` —
which can raise — and resolved through `ATNO_TO_SYMBOL`; anything else is
case-normalized as a symbol and resolved through `SYMBOL_TO_ATNO`. A falsy
dictionary hit (missing, `0` or `""`) yields `None`. -/
def parse_element_token (reg : Registry) (token : String) :
    Except PyErr (Option ParseResult) :=
  let t := pyStrip (stripBOM token)
  if t = "" then .ok none
  else if !(removeFirstDot t).data.isEmpty && (removeFirstDot t).data.all pyIsdigit then
    match py_int_float t with
    | .error e => .error e
    | .ok a =>
      match reg.atnoToSymbol a with
      | none => .ok none
      | some sym => if sym = "" then .ok none else .ok (some ⟨a, sym⟩)
  else
    let sym := norm_symbol t
    match reg.symbolToAtno (pyLower sym) with
    | none => .ok none
    | some a => if a = 0 then .ok none else .ok (some ⟨a, sym⟩)

/-- A sample registry for concrete evaluations (the `elements.csv` data file
is not part of the sources; any registry works for the general theorems). -/
def sampleReg : Registry where
  atnoToSymbol := fun n =>
    if n = 1 then some "H" else if n = 2 then some "He"
    else if n = 3 then some "Li" else if n = 8 then some "O"
    else if n = 60 then some "Nd" else none
  symbolToAtno := fun s =>
    if s = "h" then some 1 else if s = "he" then some 2
    else if s = "li" then some 3 else if s = "o" then some 8
    else if s = "nd" then some 60 else none

/-! ### Category colors -/

/-- The `CATEGORY_COLORS` mapping from the source, as an association list. -/
def CATEGORY_COLORS : List (String × String) :=
  [("Alkali metal", "#FFB3BA"),
   ("Alkaline earth metal", "#FFDFBA"),
   ("Lanthanide", "#FFFFBA"),
   ("Actinide", "#BAFFC9"),
   ("Transition metal", "#BAE1FF"),
   ("Post-transition metal", "#E2BAFF"),
   ("Metalloid", "#D3D3D3"),
   ("Nonmetal", "#BFFCC6"),
   ("Halogen", "#FFD1DC"),
   ("Noble gas", "#CBE7FF")]

/-- Models `CATEGORY_COLORS.get(cat, default)`: exact-string lookup. -/
def categoryColorsGet (cat : String) (dflt : String) : String :=
  match CATEGORY_COLORS.find? (fun p => p.1 = cat) with
  | some p => p.2
  | none => dflt

/-- Models `category_color(cat)`. A `None` category behaves as `""` (both
`(cat or "").strip()` and `CATEGORY_COLORS.get(cat, ...)` treat them alike:
neither is `"Unknown"` after stripping nor a key of the mapping). -/
def category_color (cat : String) : String :=
  if pyStrip cat = "Unknown" then "#E0E0E0"
  else categoryColorsGet cat "#F0F0F0"

/-! ### Element-table loading and grid placement -/

/-- One raw row of `elements.csv` as the loader sees it: every cell a string
(`pd.read_csv(dtype=str).fillna("")` makes a missing cell `""`). Arbitrary
extra columns are carried opaquely by the source and are irrelevant to every
claim, so they are not modelled. -/
structure RawRow where
  atomic_number : String
  atomic_no : String
  z : String
  symbol : String
  name : String
  category : String
  period : String
  group : String
  x : String
  y : String
  deriving DecidableEq, Repr

/-- The parsed element dict `el` built by the loader loop (known fields). -/
structure ElementRow where
  atomic_number : Option Int
  symbol : String
  name : String
  category : String
  period : Option Int
  group : Option Int
  x : Option Int
  y : Option Int
  deriving DecidableEq, Repr

/-- The `row.get("atomic_number", "") or row.get("atomic no", "") or
row.get("Z", "")` chain: first non-empty cell wins. -/
def atomicNumberCell (r : RawRow) : String :=
  if r.atomic_number ≠ "" then r.atomic_number
  else if r.atomic_no ≠ "" then r.atomic_no
  else r.z

/-- Models the per-row `el` construction of the loader loop (source lines
105–134). `x`, `y`, `period`, `group` go through `to_int_or_none`; the
atomic-number cell goes through the unguarded
`int(float(atomic_number)) if str(atomic_number).strip() != "" else None`,
whose exceptions abort the load (`float` itself strips whitespace, hence the
`pyStrip` before `py_int_float`). -/
def build_el (r : RawRow) : Except PyErr ElementRow :=
  let an := atomicNumberCell r
  let x := to_int_or_none r.x
  let y := to_int_or_none r.y
  let period := to_int_or_none r.period
  let group := to_int_or_none r.group
  if pyStrip an = "" then
    .ok { atomic_number := none, symbol := r.symbol, name := r.name,
          category := r.category, period := period, group := group,
          x := x, y := y }
  else
    match py_int_float (pyStrip an) with
    | .error e => .error e
    | .ok n =>
      .ok { atomic_number := some n, symbol := r.symbol, name := r.name,
            category := r.category, period := period, group := group,
            x := x, y := y }

/-- Where one parsed row goes (source lines 136–143). -/
inductive RowPlacement where
  | mainGrid (pos : Int × Int)
  | fBlock
  | dropped
  deriving DecidableEq, Repr

/-- The explicit-coordinates condition of source line 136:
`x is not None and y is not None and 1 <= x <= MAX_GROUP and
1 <= y <= MAX_PERIOD` (with `MAX_GROUP = 18`, `MAX_PERIOD = 7`). -/
def gridCond (x y : Option Int) : Bool :=
  match x, y with
  | some xv, some yv => decide (1 ≤ xv ∧ xv ≤ 18 ∧ 1 ≤ yv ∧ yv ≤ 7)
  | _, _ => false

/-- Models the placement branch of the loader loop for one parsed row:
explicit in-range coordinates put the element at `(y, x)` of `position_map`;
otherwise a Lanthanide/Actinide (exact string match) joins
`f_block_elements`; otherwise in-range `period`/`group` place it at
`(period, group)`; otherwise the row is in neither structure. -/
def place_row (e : ElementRow) : RowPlacement :=
  if gridCond e.x e.y then .mainGrid (e.y.getD 0, e.x.getD 0)
  else if e.category = "Lanthanide" ∨ e.category = "Actinide" then .fBlock
  else
    match e.period, e.group with
    | some p, some g =>
      if 1 ≤ p ∧ p ≤ 7 ∧ 1 ≤ g ∧ g ≤ 18 then .mainGrid (p, g) else .dropped
    | _, _ => .dropped

/-! ### Combination table and resolver -/

/-- One row of the combination file (`row.to_dict()` restricted to the named
columns the program reads; all cells strings, missing cells `""`). -/
structure ComboRec where
  reactant_a : String
  reactant_b : String
  combination_type : String
  primary_product_formula : String
  primary_product_name : String
  balanced_equation : String
  state_at_stp : String
  conditions : String
  facts : String
  deriving DecidableEq, Repr

/-- The in-memory combination lookup, a function from symbol pairs. -/
def ComboTable : Type := String × String → Option ComboRec

/-- Dictionary update `m[k] = v`. -/
def tableInsert (m : ComboTable) (k : String × String) (v : ComboRec) :
    ComboTable :=
  fun q => if q = k then some v else m q

/-- Models one iteration of the `COMBO_LOOKUP` build loop: skip the row when
either normalized reactant is empty, otherwise store the record under both
orderings (`(a, b)` first, then `(b, a)`, as in the source). -/
def insertRow (m : ComboTable) (row : ComboRec) : ComboTable :=
  let a := norm_symbol row.reactant_a
  let b := norm_symbol row.reactant_b
  if a = "" ∨ b = "" then m
  else tableInsert (tableInsert m (a, b) row) (b, a) row

/-- Models the `COMBO_LOOKUP` construction over the whole combination file. -/
def buildComboLookup (rows : List ComboRec) : ComboTable :=
  rows.foldl insertRow (fun _ => none)

/-- The discriminated outcome of `run_combination` (the source renders each
case as a distinct message/record display). -/
inductive ComboResult where
  | invalidInput
  | lockedForLevel
  | noRecord
  | found (r : ComboRec)
  deriving DecidableEq, Repr

/-- Models `run_combination(...)` (source lines 1122–1135) after the level is
extracted from the store: parse both tokens (either parse may raise), report
`invalidInput` when either is falsy, then the lock gate — category omitted,
so it defaults to `None` — and only then the table lookup. -/
def run_combination (reg : Registry) (lookup : ComboTable) (level : String)
    (v1 v2 : String) : Except PyErr ComboResult :=
  match parse_element_token reg v1 with
  | .error e => .error e
  | .ok p1 =>
    match parse_element_token reg v2 with
    | .error e => .error e
    | .ok p2 =>
      match p1, p2 with
      | none, _ => .ok .invalidInput
      | _, none => .ok .invalidInput
      | some q1, some q2 =>
        if !is_unlocked_for_level level (some q1.atno)
            || !is_unlocked_for_level level (some q2.atno) then
          .ok .lockedForLevel
        else
          match lookup (q1.symbol, q2.symbol) with
          | none => .ok .noRecord
          | some r => .ok (.found r)

/-! ### Quiz gate -/

/-- An entry of `ELEMENTS_BY_ATNO` (name, symbol, category, all stripped at
load time). -/
structure ElInfo where
  name : String
  symbol : String
  category : String
  deriving DecidableEq, Repr

/-- One question of `QUIZ_BANK`. -/
structure QuizQ where
  q : String
  atno : Int
  ask : String
  hint : String
  deriving DecidableEq, Repr

/-- The related/fallback question dict `{"q": ..., "a": [...]}`. -/
structure RelatedQ where
  q : String
  a : List String
  deriving DecidableEq, Repr

/-- The quiz-store dict. `level` and `related` may be `None`; the remaining
fields always hold values of these types in every state the program builds. -/
structure QuizState where
  stage : String
  level : Option String
  idx : Int
  score : Int
  mode : String
  hint_used : Bool
  feedback : String
  related : Option RelatedQ
  deriving DecidableEq, Repr

/-- The `"Basic"` bank of `QUIZ_BANK` (questions copied verbatim). -/
def basicQuestions : List QuizQ :=
  [⟨"What is the symbol for Hydrogen?", 1, "symbol",
    "Hydrogen is the most abundant element in the universe — its symbol is just one letter."⟩,
   ⟨"What is the name of the element with symbol O?", 8, "name",
    "It makes up about 21% of Earth’s atmosphere and is essential for respiration."⟩,
   ⟨"What is the symbol for the 20th element?", 20, "symbol",
    "This element helps strengthen bones and teeth — its symbol is two letters."⟩]

/-- The `"Intermediate"` bank of `QUIZ_BANK`. -/
def intermediateQuestions : List QuizQ :=
  [⟨"What is the atomic number for Iron?", 26, "atomic_number",
    "Iron is the main ingredient in steel and is vital in your blood — its atomic number is in the 20s."⟩,
   ⟨"What is the symbol for Krypton?", 36, "symbol",
    "A noble gas used in lighting — its symbol starts with K."⟩,
   ⟨"What is the name of the 54th element?", 54, "name",
    "It’s a noble gas — used in some lamps and anesthesia research."⟩]

/-- The `"Advanced"` bank of `QUIZ_BANK`. -/
def advancedQuestions : List QuizQ :=
  [⟨"What is the symbol for Mercury?", 80, "symbol",
    "Mercury is a metal that’s liquid at room temperature — its symbol doesn’t match its English name."⟩,
   ⟨"What is the atomic number of Plutonium?", 94, "atomic_number",
    "A radioactive element used in nuclear technology — its atomic number is in the 90s."⟩,
   ⟨"What is the symbol for Uranium?", 92, "symbol",
    "A heavy element used as nuclear fuel — its symbol is a single letter."⟩]

/-- Models the `QUIZ_BANK` dictionary. -/
def QUIZ_BANK (level : String) : Option (List QuizQ) :=
  if level = "Basic" then some basicQuestions
  else if level = "Intermediate" then some intermediateQuestions
  else if level = "Advanced" then some advancedQuestions
  else none

/-- Models Python list indexing `l[i]` (negative indices count from the end;
out of range raises `IndexError`). -/
def pyIndex {α : Type} (l : List α) (i : Int) : Except PyErr α :=
  let j : Int := if i < 0 then i + l.length else i
  if h : 0 ≤ j ∧ j.toNat < l.length then .ok (l.get ⟨j.toNat, h.2⟩)
  else .error .indexError

/-- Models `get_answer_for_main(qobj)` over the registry `ELEMENTS_BY_ATNO`
(modelled as a function; a missing entry behaves as the empty dict). -/
def get_answer_for_main (elements : Int → Option ElInfo) (qobj : QuizQ) :
    List String :=
  let el := (elements qobj.atno).getD ⟨"", "", ""⟩
  if qobj.ask = "atomic_number" then [toString qobj.atno]
  else if qobj.ask = "symbol" then [norm el.symbol]
  else if qobj.ask = "name" then [norm el.name]
  else []

/-- Models `build_related(qobj, level)`: the complementary question about the
same element, or the level fallback (atomic number 1, or 26 for Intermediate)
when that element is locked for the level. -/
def build_related (elements : Int → Option ElInfo) (qobj : QuizQ)
    (level : String) : RelatedQ :=
  let atno := qobj.atno
  let el := (elements atno).getD ⟨"", "", ""⟩
  let name := if el.name = "" then "element #" ++ toString atno else el.name
  let sym := el.symbol
  let cat := pyStrip el.category
  let rel : RelatedQ :=
    if qobj.ask = "symbol" then
      ⟨"What is the atomic number of " ++ name ++ "?", [toString atno]⟩
    else
      ⟨"What is the symbol for " ++ name ++ "?", [norm sym]⟩
  if !is_unlocked_for_level level (some atno) (some cat) then
    let fallbackAt : Int :=
      if level = "Basic" then 1 else if level = "Intermediate" then 26 else 1
    let fb := (elements fallbackAt).getD ⟨"", "", ""⟩
    let fbName :=
      if fb.name = "" then "element #" ++ toString fallbackAt else fb.name
    ⟨"What is the atomic number of " ++ fbName ++ "?", [toString fallbackAt]⟩
  else
    ⟨rel.q, (rel.a.filter (fun s => s ≠ "")).map norm⟩

/-- Models `_advance_question(qs)`: the pair of callback outputs (new store,
app phase); `none` in a component is `dash.no_update`. -/
def advance_question (qs : QuizState) : Option QuizState × Option String :=
  let score := qs.score + 1
  if qs.idx ≥ 2 then (some { qs with stage := "done", score := score }, some "table")
  else
    (some { qs with
              idx := qs.idx + 1, score := score, mode := "main",
              hint_used := false, feedback := "", related := none }, none)

/-- Models the `next_question` callback body (source lines 916–946) on one
submitted answer: outside the questions stage nothing updates; otherwise the
current main question is fetched (Python list indexing can raise), then the
related-mode branch, the correct-answer branch, the first-hint branch, and
the switch-to-related branch, in source order. -/
def next_question (elements : Int → Option ElInfo) (ans : String)
    (qs : QuizState) : Except PyErr (Option QuizState × Option String) :=
  if qs.stage ≠ "questions" then .ok (none, none)
  else
    let level :=
      match qs.level with
      | none => "Basic"
      | some s => if s = "" then "Basic" else s
    let user := norm ans
    let bank := (QUIZ_BANK level).getD basicQuestions
    match pyIndex bank qs.idx with
    | .error e => .error e
    | .ok main_qobj =>
      let mainBranch : Except PyErr (Option QuizState × Option String) :=
        let acceptable := (get_answer_for_main elements main_qobj).map norm
        if user ∈ acceptable then .ok (advance_question qs)
        else if !qs.hint_used then
          let hint_msg :=
            if main_qobj.hint = "" then "" else "Hint: " ++ main_qobj.hint
          .ok (some { qs with
                        hint_used := true, feedback := hint_msg,
                        mode := "main" }, none)
        else
          let rel := qs.related.getD (build_related elements main_qobj level)
          .ok (some { qs with mode := "related", related := some rel }, none)
      if qs.mode = "related" then
        match qs.related with
        | some rel =>
          if user ∈ rel.a.map norm then .ok (advance_question qs)
          else .ok (some { qs with mode := "main" }, none)
        | none => mainBranch
      else mainBranch

/-- A sample `ELEMENTS_BY_ATNO` for concrete evaluations. -/
def sampleElements : Int → Option ElInfo := fun n =>
  if n = 1 then some ⟨"Hydrogen", "H", "Nonmetal"⟩
  else if n = 8 then some ⟨"Oxygen", "O", "Nonmetal"⟩
  else if n = 20 then some ⟨"Calcium", "Ca", "Alkaline earth metal"⟩
  else none

/-! ### Sample data for concrete evaluations -/

/-- The symmetry invariant of the combination lookup table. -/
def symmTable (m : ComboTable) : Prop := ∀ p q : String, m (p, q) = m (q, p)

/-- A sample combination row. -/
def sampleComboRow : ComboRec :=
  ⟨"H", "O", "synthesis", "H2O", "water", "2H2 + O2 = 2H2O", "liquid",
   "ignition", ""⟩

/-- A one-row sample combination file. -/
def sampleComboRows : List ComboRec := [sampleComboRow]

/-- An element row whose atomic-number cell is non-blank but not numeric. -/
def rowBadAtno : RawRow :=
  { atomic_number := "abc", atomic_no := "", z := "", symbol := "Xx",
    name := "Mystery", category := "Nonmetal", period := "2", group := "14",
    x := "", y := "" }

/-- An element row with a blank atomic-number cell. -/
def rowBlankAtno : RawRow :=
  { atomic_number := " ", atomic_no := "", z := "", symbol := "Q",
    name := "Quux", category := "", period := "", group := "", x := "",
    y := "" }

/-- An element row whose `x`/`group` cells fail numeric parsing and whose `y`
cell is a decimal. -/
def rowTolerant : RawRow :=
  { atomic_number := "5", atomic_no := "", z := "", symbol := "B",
    name := "Boron", category := "Metalloid", period := "2", group := "oops",
    x := "??", y := "1.5" }

/-- A quiz state sitting on a related question of the Basic bank. -/
def qsRelatedSample : QuizState :=
  { stage := "questions", level := some "Basic", idx := 0, score := 0,
    mode := "related", hint_used := true, feedback := "",
    related := some ⟨"What is the atomic number of Hydrogen?", ["1"]⟩ }

/-! ### Theorems -/

/-- C1: for a truthy atomic number `k`, `is_unlocked_for_level` at `"Basic"`
is true iff `k ≤ 20`, and at `"Intermediate"` iff `k ≤ 54` and the stripped
category is neither `"Lanthanide"` nor `"Actinide"`; and for every level
string, a falsy atomic number (`None` or `0`) is locked. -/
theorem unlocked_basic_intermediate_falsy_spec (n : Option Int)
    (cat : Option String) :
    (∀ k : Int, n = some k → k ≠ 0 →
      ((is_unlocked_for_level "Basic" n cat = true ↔ k ≤ 20) ∧
       (is_unlocked_for_level "Intermediate" n cat = true ↔
          (k ≤ 54 ∧ pyStrip (cat.getD "") ≠ "Lanthanide" ∧
           pyStrip (cat.getD "") ≠ "Actinide")))) ∧
    (∀ level : String, n = none ∨ n = some 0 →
      is_unlocked_for_level level n cat = false) := by
  constructor
  · rintro k rfl hk
    constructor
    · simp [is_unlocked_for_level, hk]
    · by_cases h1 : pyStrip (cat.getD "") = "Lanthanide" <;>
        by_cases h2 : pyStrip (cat.getD "") = "Actinide" <;>
          simp [is_unlocked_for_level, hk, h1, h2]
  · rintro level (rfl | rfl) <;> simp [is_unlocked_for_level]

/-- Witness for C1: atomic number 7 is unlocked at Basic, and an absent
atomic number is locked at Advanced. -/
theorem unlocked_basic_intermediate_falsy_spec_app :
    is_unlocked_for_level "Basic" (some 7) none = true ∧
    is_unlocked_for_level "Advanced" none none = false :=
  ⟨(((unlocked_basic_intermediate_falsy_spec (some 7) none).1 7 rfl
      (by decide)).1).mpr (by decide),
   (unlocked_basic_intermediate_falsy_spec none none).2 "Advanced" (Or.inl rfl)⟩

/-- C2 counterexample: at `"Advanced"` the code unlocks the atomic number
`-1` (it only checks `atno <= 118`), while the claim demands `false` for
every `n < 1`. -/
theorem unlocked_advanced_negative_cex :
    is_unlocked_for_level "Advanced" (some (-1)) none = true ∧
    ¬ ((1 : Int) ≤ -1) := by decide

/-- C2 amended: `is_unlocked_for_level("Advanced", n, cat)` is true iff the
atomic number is present, non-zero and at most 118 (every negative value is
unlocked, since only the upper bound is checked). -/
theorem unlocked_advanced_iff (n : Option Int) (cat : Option String) :
    is_unlocked_for_level "Advanced" n cat = true ↔
      (∃ k : Int, n = some k ∧ k ≠ 0 ∧ k ≤ 118) := by
  cases n with
  | none => simp [is_unlocked_for_level]
  | some k => by_cases hk : k = 0 <;> simp [is_unlocked_for_level, hk]

/-- C3 (code bug): `parse_element_token` is not total. `"²"` passes the
`isdigit` gate (`Numeric_Type=Digit`) but `float("²")` raises `ValueError`,
and a 400-digit token overflows the double conversion, so `int(float(t))`
raises `OverflowError`. -/
theorem parse_element_token_raises :
    parse_element_token sampleReg "²" = .error .valueError ∧
    parse_element_token sampleReg (String.mk (List.replicate 400 '9')) =
      .error .overflowError := by decide

/-- C4 (code bug): a non-blank atomic-number cell that fails numeric parsing
aborts the load with `ValueError` (the loop uses the unguarded
`int(float(...))` for this one field), while blank atomic numbers and
unparseable `x`/`y`/`period`/`group` cells are tolerated exactly as the
claim says — absent, never zero, row still included. -/
theorem element_load_atomic_number_aborts :
    build_el rowBadAtno = .error .valueError ∧
    build_el rowBlankAtno = .ok
      { atomic_number := none, symbol := "Q", name := "Quux", category := "",
        period := none, group := none, x := none, y := none } ∧
    build_el rowTolerant = .ok
      { atomic_number := some 5, symbol := "B", name := "Boron",
        category := "Metalloid", period := some 2, group := none, x := none,
        y := some 1 } := by decide

/-- C7 counterexample: the empty (absent) category is colored with the
unrecognized-string default `#F0F0F0`, not with the `"Unknown"` color
`#E0E0E0`, so "Unknown **including empty**" is wrong. -/
theorem category_color_empty_cex :
    category_color "" = "#F0F0F0" ∧ category_color "Unknown" = "#E0E0E0" ∧
    category_color "" ≠ category_color "Unknown" := by decide

/-- C7 amended: a category that strips to `"Unknown"` gets `#E0E0E0`; a
recognized category name (exact match) gets its own color; every other
string — including the empty/absent category — gets the default `#F0F0F0`;
and these outcomes are pairwise distinct colors. -/
theorem category_color_cases (cat : String) :
    (pyStrip cat = "Unknown" → category_color cat = "#E0E0E0") ∧
    (pyStrip cat ≠ "Unknown" →
      ∀ c : String × String,
        CATEGORY_COLORS.find? (fun p => p.1 = cat) = some c →
          category_color cat = c.2) ∧
    (pyStrip cat ≠ "Unknown" →
      CATEGORY_COLORS.find? (fun p => p.1 = cat) = none →
        category_color cat = "#F0F0F0") ∧
    ("#E0E0E0" ∉ CATEGORY_COLORS.map Prod.snd ∧
     "#F0F0F0" ∉ CATEGORY_COLORS.map Prod.snd ∧
     ("#E0E0E0" : String) ≠ "#F0F0F0" ∧
     (CATEGORY_COLORS.map Prod.snd).Nodup) := by
  refine ⟨?_, ?_, ?_, by decide⟩
  · intro h
    simp [category_color, h]
  · intro h c hc
    simp [category_color, h, categoryColorsGet, hc]
  · intro h hc
    simp [category_color, h, categoryColorsGet, hc]

/-- Witness for C7 amended: `" Unknown "` strips to the Unknown color, and
`"Halogen"` is found in the table with its own color. -/
theorem category_color_cases_app :
    category_color " Unknown " = "#E0E0E0" ∧
    category_color "Halogen" = "#FFD1DC" :=
  ⟨(category_color_cases " Unknown ").1 (by decide),
   (category_color_cases "Halogen").2.1 (by decide) ("Halogen", "#FFD1DC")
     (by decide)⟩

/-- C10 counterexample: the claim's "truncates toward zero" fails:
`int(float("2.9999999999999999"))` is `3` (the decimal is within half an ulp
of `3.0`, so the double conversion rounds up), hence the token resolves to
atomic number 3 and not to the element of `"2"`. -/
theorem parse_decimal_rounds_up_cex :
    parse_element_token sampleReg "2.9999999999999999" = .ok (some ⟨3, "Li"⟩) ∧
    parse_element_token sampleReg "2" = .ok (some ⟨2, "He"⟩) ∧
    (⟨3, "Li"⟩ : ParseResult) ≠ ⟨2, "He"⟩ := by decide

/-- C10 amended: a token of digits with at most one dot is parsed via
`int(float(token))`: the value is rounded to the nearest double and then
truncated toward zero. For short tokens this is truncation — `"2.9"` resolves
exactly like `"2"`, and `".5"` becomes atomic number `0` and returns the
absent sentinel — but a token within half an ulp of the next integer, such as
`"2.9999999999999999"`, rounds up before the truncation. -/
theorem parse_decimal_int_float :
    parse_element_token sampleReg "2.9" = parse_element_token sampleReg "2" ∧
    parse_element_token sampleReg "2.9" = .ok (some ⟨2, "He"⟩) ∧
    py_int_float ".5" = .ok 0 ∧
    parse_element_token sampleReg ".5" = .ok none ∧
    parse_element_token sampleReg "2.9999999999999999" =
      .ok (some ⟨3, "Li"⟩) := by decide

/-- C8: explicit in-range coordinates place the row at `(gridY, gridX)`
regardless of its `period`/`group` fields; otherwise the row is in the
f-block overflow iff its category is Lanthanide/Actinide; otherwise it is on
the main grid iff `period ∈ [1,7]` and `group ∈ [1,18]`, at `(period, group)`. -/
theorem place_row_cases (e : ElementRow) :
    (∀ xv yv : Int, e.x = some xv → e.y = some yv →
      1 ≤ xv → xv ≤ 18 → 1 ≤ yv → yv ≤ 7 →
      place_row e = .mainGrid (yv, xv)) ∧
    (gridCond e.x e.y = false →
      (place_row e = .fBlock ↔
        (e.category = "Lanthanide" ∨ e.category = "Actinide"))) ∧
    (gridCond e.x e.y = false → e.category ≠ "Lanthanide" →
      e.category ≠ "Actinide" →
      ∀ pos : Int × Int,
        (place_row e = .mainGrid pos ↔
          ∃ p g : Int, pos = (p, g) ∧ e.period = some p ∧ e.group = some g ∧
            1 ≤ p ∧ p ≤ 7 ∧ 1 ≤ g ∧ g ≤ 18)) := by
  refine ⟨?_, ?_, ?_⟩
  · intro xv yv hx hy k1 k2 k3 k4
    have hg : gridCond e.x e.y = true := by
      simp [gridCond, hx, hy]
      omega
    unfold place_row
    rw [hg]
    simp [hx, hy]
  · intro hg
    by_cases hL : e.category = "Lanthanide" <;>
      by_cases hA : e.category = "Actinide" <;>
        rcases hp : e.period with _ | p <;> rcases hq : e.group with _ | g <;>
          simp [place_row, hg, hL, hA, hp, hq] <;> (split <;> simp)
  · intro hg hL hA pos
    rcases hp : e.period with _ | p <;> rcases hq : e.group with _ | g <;>
      simp [place_row, hg, hL, hA, hp, hq]
    constructor
    · intro h
      split at h
      · exact ⟨p, g, by cases h; tauto⟩
      · cases h
    · rintro ⟨p1, g1, rfl, hp1, hg1, k⟩
      cases hp1
      cases hg1
      rw [if_pos (by tauto)]

/-- Witness for C8: a row with `gridX = 1`, `gridY = 1` lands at grid
position `(1, 1)` although its `period`/`group` fields say `(5, 13)`. -/
theorem place_row_cases_app :
    place_row
      { atomic_number := some 1, symbol := "H", name := "Hydrogen",
        category := "Nonmetal", period := some 5, group := some 13,
        x := some 1, y := some 1 } = .mainGrid (1, 1) :=
  (place_row_cases _).1 1 1 rfl rfl (by decide) (by decide) (by decide)
    (by decide)

/-- C9 counterexample: in related mode with a present related question, an
incorrect answer makes `next_question` set the sub-mode back to `"main"` —
the state does **not** remain in related mode. -/
theorem related_incorrect_stays_cex :
    next_question sampleElements "2" qsRelatedSample =
      .ok (some { qsRelatedSample with mode := "main" }, none) ∧
    ({ qsRelatedSample with mode := "main" } : QuizState).mode ≠ "related" := by
  decide

/-- Helper: Python list indexing succeeds on an in-range nonnegative index. -/
theorem pyIndex_ok {α : Type} (l : List α) (i : Int) (h0 : 0 ≤ i)
    (h1 : i < l.length) : ∃ a, pyIndex l i = .ok a := by
  have hneg : ¬ i < 0 := by omega
  have hc : 0 ≤ i ∧ i.toNat < l.length := ⟨h0, by omega⟩
  refine ⟨l.get ⟨i.toNat, hc.2⟩, ?_⟩
  simp [pyIndex, hneg, hc]

/-- C9 amended: in the questions stage, in related mode with a stored related
question and an incorrect answer (and an in-range question index), the state
switches back to main mode with `idx`, `score`, the related question, the
hint flag and the feedback all unchanged, and no further hint is surfaced. -/
theorem related_incorrect_to_main (elements : Int → Option ElInfo)
    (ans : String) (qs : QuizState) (rel : RelatedQ)
    (hstage : qs.stage = "questions") (hmode : qs.mode = "related")
    (hrel : qs.related = some rel) (hidx : 0 ≤ qs.idx ∧ qs.idx < 3)
    (hwrong : norm ans ∉ rel.a.map norm) :
    next_question elements ans qs = .ok (some { qs with mode := "main" }, none) := by
  have hb : ∀ level : String,
      ((QUIZ_BANK level).getD basicQuestions).length = 3 := by
    intro level
    by_cases h1 : level = "Basic" <;> by_cases h2 : level = "Intermediate" <;>
      by_cases h3 : level = "Advanced" <;>
        simp [QUIZ_BANK, h1, h2, h3, basicQuestions, intermediateQuestions,
          advancedQuestions]
  obtain ⟨q, hq⟩ :=
    pyIndex_ok ((QUIZ_BANK (match qs.level with
      | none => "Basic"
      | some s => if s = "" then "Basic" else s)).getD basicQuestions)
      qs.idx hidx.1 (by rw [hb]; omega)
  simp only [next_question, hstage, hmode, hrel, hq]
  simp [hwrong]

/-- Witness for C9 amended: a concrete wrong answer on the sample related
state lands back in main mode with everything else unchanged. -/
theorem related_incorrect_to_main_app :
    next_question sampleElements "xx" qsRelatedSample =
      .ok (some { qsRelatedSample with mode := "main" }, none) :=
  related_incorrect_to_main sampleElements "xx" qsRelatedSample
    ⟨"What is the atomic number of Hydrogen?", ["1"]⟩ rfl rfl rfl
    (by decide) (by decide)

/-- Helper: one build-loop iteration preserves the symmetry invariant. -/
theorem symmTable_insertRow (m : ComboTable) (row : ComboRec)
    (h : symmTable m) : symmTable (insertRow m row) := by
  intro p q
  unfold insertRow tableInsert
  generalize norm_symbol row.reactant_a = a
  generalize norm_symbol row.reactant_b = b
  by_cases he : a = "" ∨ b = ""
  · rw [if_pos he]
    exact h p q
  · rw [if_neg he]
    simp only [Prod.mk.injEq]
    by_cases h1 : p = b ∧ q = a
    · rw [if_pos h1]
      by_cases h2 : q = b ∧ p = a
      · rw [if_pos h2]
      · rw [if_neg h2, if_pos (show q = a ∧ p = b from ⟨h1.2, h1.1⟩)]
    · rw [if_neg h1]
      by_cases h2 : p = a ∧ q = b
      · rw [if_pos h2]
        by_cases h3 : q = b ∧ p = a
        · rw [if_pos h3]
        · exact absurd ⟨h2.2, h2.1⟩ h3
      · rw [if_neg h2,
            if_neg (show ¬(q = b ∧ p = a) from fun hc => h2 ⟨hc.2, hc.1⟩),
            if_neg (show ¬(q = a ∧ p = b) from fun hc => h1 ⟨hc.2, hc.1⟩)]
        exact h p q

/-- Helper: folding the build loop over any rows preserves symmetry. -/
theorem symmTable_foldl (rows : List ComboRec) (m : ComboTable)
    (h : symmTable m) : symmTable (rows.foldl insertRow m) := by
  induction rows generalizing m with
  | nil => exact h
  | cons r rest ih => exact ih _ (symmTable_insertRow _ _ h)

/-- Helper: the value of `run_combination` once both tokens resolve. -/
theorem run_combination_some_some (reg : Registry) (lookup : ComboTable)
    (level v1 v2 : String) (q1 q2 : ParseResult)
    (h1 : parse_element_token reg v1 = .ok (some q1))
    (h2 : parse_element_token reg v2 = .ok (some q2)) :
    run_combination reg lookup level v1 v2 =
      if (!is_unlocked_for_level level (some q1.atno)
          || !is_unlocked_for_level level (some q2.atno)) then
        .ok .lockedForLevel
      else
        match lookup (q1.symbol, q2.symbol) with
        | none => .ok .noRecord
        | some r => .ok (.found r) := by
  unfold run_combination
  rw [h1, h2]

/-- C5: the loaded combination table is symmetric — it holds `(A, B)` iff it
holds `(B, A)`, both mapped to the identical record — and consequently
whenever `run_combination` finds a record for `(a, b)` it finds the same
record, with identical fields, for `(b, a)`. -/
theorem combo_lookup_and_combine_symmetric (rows : List ComboRec) :
    (∀ p q : String,
      buildComboLookup rows (p, q) = buildComboLookup rows (q, p)) ∧
    (∀ (reg : Registry) (level v1 v2 : String) (r : ComboRec),
      run_combination reg (buildComboLookup rows) level v1 v2 =
        .ok (.found r) →
      run_combination reg (buildComboLookup rows) level v2 v1 =
        .ok (.found r)) := by
  have hsymm : symmTable (buildComboLookup rows) :=
    symmTable_foldl rows _ (fun _ _ => rfl)
  refine ⟨hsymm, ?_⟩
  intro reg level v1 v2 r h
  cases hp1 : parse_element_token reg v1 with
  | error e =>
    unfold run_combination at h
    rw [hp1] at h
    cases h
  | ok o1 =>
    cases hp2 : parse_element_token reg v2 with
    | error e =>
      unfold run_combination at h
      rw [hp1, hp2] at h
      cases h
    | ok o2 =>
      cases o1 with
      | none =>
        unfold run_combination at h
        rw [hp1, hp2] at h
        simp at h
      | some q1 =>
        cases o2 with
        | none =>
          unfold run_combination at h
          rw [hp1, hp2] at h
          simp at h
        | some q2 =>
          rw [run_combination_some_some reg _ level v1 v2 q1 q2 hp1 hp2] at h
          rw [run_combination_some_some reg _ level v2 v1 q2 q1 hp2 hp1,
              Bool.or_comm, hsymm q2.symbol q1.symbol]
          exact h

/-- Witness for C5: with a one-row sample table, `O + H` finds the very
record stored for `H + O`. -/
theorem combo_lookup_and_combine_symmetric_app :
    run_combination sampleReg (buildComboLookup sampleComboRows) "Advanced"
      "O" "H" = .ok (.found sampleComboRow) :=
  (combo_lookup_and_combine_symmetric sampleComboRows).2 sampleReg "Advanced"
    "H" "O" sampleComboRow (by decide)

/-- C6: `run_combination` discriminates its failures in source order: a token
that fails to normalize gives `invalidInput`; with both tokens resolved, a
lock failure (category defaulted, i.e. omitted, at this call site) gives
`lockedForLevel` for **every** lookup table — the lookup is never consulted;
with both unlocked, an absent pair gives `noRecord` and a present pair gives
`found` with that record. -/
theorem run_combination_discrimination (reg : Registry) (level v1 v2 : String)
    (o1 o2 : Option ParseResult)
    (h1 : parse_element_token reg v1 = .ok o1)
    (h2 : parse_element_token reg v2 = .ok o2) :
    ((o1 = none ∨ o2 = none) →
      ∀ lookup : ComboTable,
        run_combination reg lookup level v1 v2 = .ok .invalidInput) ∧
    (∀ q1 q2 : ParseResult, o1 = some q1 → o2 = some q2 →
      ((is_unlocked_for_level level (some q1.atno) = false ∨
        is_unlocked_for_level level (some q2.atno) = false) →
        ∀ lookup : ComboTable,
          run_combination reg lookup level v1 v2 = .ok .lockedForLevel) ∧
      (is_unlocked_for_level level (some q1.atno) = true →
        is_unlocked_for_level level (some q2.atno) = true →
        ∀ lookup : ComboTable,
          (lookup (q1.symbol, q2.symbol) = none →
            run_combination reg lookup level v1 v2 = .ok .noRecord) ∧
          (∀ r : ComboRec, lookup (q1.symbol, q2.symbol) = some r →
            run_combination reg lookup level v1 v2 = .ok (.found r)))) := by
  constructor
  · rintro (rfl | rfl) lookup <;> unfold run_combination <;> rw [h1, h2]
    · cases o2 <;> rfl
    · cases o1 <;> rfl
  · rintro q1 q2 rfl rfl
    constructor
    · intro hlock lookup
      unfold run_combination
      rw [h1, h2]
      have hc : (!is_unlocked_for_level level (some q1.atno)
          || !is_unlocked_for_level level (some q2.atno)) = true := by
        rcases hlock with h | h <;> simp [h]
      simp only [hc, if_true]
    · intro hu1 hu2 lookup
      have hc : (!is_unlocked_for_level level (some q1.atno)
          || !is_unlocked_for_level level (some q2.atno)) = false := by
        simp [hu1, hu2]
      constructor
      · intro hlk
        unfold run_combination
        rw [h1, h2]
        simp only [hc, Bool.false_eq_true, if_false, hlk]
      · intro r hlk
        unfold run_combination
        rw [h1, h2]
        simp only [hc, Bool.false_eq_true, if_false, hlk]

/-- Witness for C6: two resolving tokens whose pair is absent from an empty
table yield `noRecord`, not `invalidInput`. -/
theorem run_combination_discrimination_app :
    run_combination sampleReg (fun _ => none) "Advanced" "He" "Li" =
      .ok .noRecord :=
  (((run_combination_discrimination sampleReg "Advanced" "He" "Li"
      (some ⟨2, "He"⟩) (some ⟨3, "Li"⟩) (by decide) (by decide)).2
      ⟨2, "He"⟩ ⟨3, "Li"⟩ rfl rfl).2 (by decide) (by decide)
      (fun _ => none)).1 rfl

end Advancetable
